import Mathlib

/-!
Verification of the Rescan Worker (a BEFORE_DOWNLOAD policy gate sitting
between an artifact repository and the Xray scanning service).

The development shallowly embeds `src/types.ts` and `src/worker.ts`:
JavaScript strings are Lean `String`s, the relevant JS string operations
(`toLowerCase`, `startsWith`, `includes`, truthiness of `string`) are
modelled explicitly, optional-chaining (`?.`) is modelled with `Option`,
thrown exceptions with `Except String` (carrying the error message), and
each outbound HTTP call is recorded in a trace so that claims about which
endpoints are (not) invoked can be stated and proved.
-/

namespace RescanWorker

/-! ### JavaScript string primitives used by worker.ts -/

/-- Model of JS `String.prototype.toLowerCase` (ASCII-adequate): lowercase
every character. -/
def jsToLower (s : String) : String :=
  String.mk (s.data.map Char.toLower)

/-- Model of JS `String.prototype.startsWith`. -/
def jsStartsWith (s p : String) : Bool :=
  p.data.isPrefixOf s.data

/-- Model of JS `String.prototype.includes` (substring test): some tail of
`s` starts with `sub`. -/
def jsIncludes (s sub : String) : Bool :=
  (s.data.tails).any fun t => sub.data.isPrefixOf t

/-- JS falsiness of a possibly-absent string: `undefined`/`null` and the
empty string are falsy; this is what `!repoKey` tests in worker.ts. -/
def jsFalsyOptStr : Option String → Bool
  | none => true
  | some s => decide (s = "")

/-! ### Data model (src/types.ts) -/

/-- `DownloadStatus` enum from types.ts. -/
inductive DownloadStatus where
  | DOWNLOAD_UNSPECIFIED
  | DOWNLOAD_PROCEED
  | DOWNLOAD_STOP
  | DOWNLOAD_WARN
  | UNRECOGNIZED
deriving DecidableEq

/-- `RepoPath` from types.ts (the unread `id` field is kept; all fields the
worker reads are present). -/
structure RepoPath where
  key : String
  path : String
  id : String
  isRoot : Bool
  isFolder : Bool
deriving DecidableEq

/-- `UserContext` from types.ts. -/
structure UserContext where
  id : String
  isToken : Bool
  realm : String
deriving DecidableEq

/-- `DownloadMetadata` from types.ts, restricted to the fields worker.ts
reads (`repoPath`, `clientAddress`); the many other scalar fields are never
read by the worker and cannot influence its behaviour. -/
structure DownloadMetadata where
  repoPath : Option RepoPath
  clientAddress : String
deriving DecidableEq

/-- `BeforeDownloadRequest` from types.ts, restricted to the fields
worker.ts reads (`metadata`, `userContext`); `headers` and the top-level
`repoPath` are never read by the worker. -/
structure BeforeDownloadRequest where
  metadata : Option DownloadMetadata
  userContext : Option UserContext
deriving DecidableEq

/-- `BeforeDownloadResponse` from types.ts; the header map is a (here
always empty) association list. -/
structure BeforeDownloadResponse where
  status : DownloadStatus
  message : String
  headers : List (String × String)
deriving DecidableEq

/-! ### Collaborator (HTTP) model

The worker makes at most one call to each of three endpoints: the Xray
ping, the artifact status query, and the force-reindex trigger.  An `Env`
fixes the behaviour of each endpoint for the single request being handled:
either the call throws (with an error message) or returns a response value,
itself possibly `null`/`undefined`.  Every call the worker performs is
recorded in a trace of `HttpCall`s. -/

/-- One element of the force-reindex request body's `artifacts` array. -/
structure ReindexArtifact where
  repository : String
  path : String
deriving DecidableEq

/-- An outbound HTTP call performed by the worker, with the request data
that the corresponding claim cares about. -/
inductive HttpCall where
  | ping
  | status (repo : String) (path : String)
  | reindex (artifacts : List ReindexArtifact)
deriving DecidableEq

/-- Shape of the ping response as probed by `response?.data?.status`. -/
structure PingData where
  status : Option String
deriving DecidableEq

/-- Ping response wrapper (`response?.data`). -/
structure PingResponse where
  data : Option PingData
deriving DecidableEq

/-- Innermost level of the scan-status response (`overall?.status`). -/
structure OverallStatus where
  status : Option String
deriving DecidableEq

/-- Middle level of the scan-status response (`data?.overall`). -/
structure StatusData where
  overall : Option OverallStatus
deriving DecidableEq

/-- Scan-status response wrapper (`response?.data`). -/
structure StatusResponse where
  data : Option StatusData
deriving DecidableEq

/-- Reindex response: worker.ts probes `response?.status`,
`response?.statusCode` and `response?.status` (again) for a numeric HTTP
status code. -/
structure ReindexResponse where
  status : Option Int
  statusCode : Option Int
deriving DecidableEq

/-- Behaviour of the three collaborator endpoints for one request:
`Except.error msg` models a thrown error whose message is `msg`, `Except.ok`
a returned (possibly `null`) response. -/
structure Env where
  pingResult : Except String (Option PingResponse)
  statusResult : Except String (Option StatusResponse)
  reindexResult : Except String (Option ReindexResponse)

/-! ### worker.ts: request field access -/

/-- `data.metadata?.repoPath`. -/
def reqRepoPath (data : BeforeDownloadRequest) : Option RepoPath :=
  match data.metadata with
  | none => none
  | some m => m.repoPath

/-- `data.metadata?.repoPath?.key`. -/
def reqRepoKey (data : BeforeDownloadRequest) : Option String :=
  (reqRepoPath data).map fun rp => rp.key

/-- `data.metadata?.repoPath?.path`. -/
def reqArtifactPath (data : BeforeDownloadRequest) : Option String :=
  (reqRepoPath data).map fun rp => rp.path

/-- `data.metadata?.repoPath?.isFolder` coerced as in the JS condition
(missing means falsy). -/
def reqIsFolderFlag (data : BeforeDownloadRequest) : Bool :=
  match reqRepoPath data with
  | none => false
  | some rp => rp.isFolder

/-- `data.metadata?.repoPath?.isRoot` coerced as in the JS condition. -/
def reqIsRootFlag (data : BeforeDownloadRequest) : Bool :=
  match reqRepoPath data with
  | none => false
  | some rp => rp.isRoot

/-! ### worker.ts: isXrayIndexingRequest -/

/-- `isXrayIndexingRequest` from worker.ts: the originator is recognized as
Xray itself when the lowercased user id or realm contains "xray", or the
lowercased client address is a loopback address. -/
def isXrayIndexingRequest (data : BeforeDownloadRequest) : Bool :=
  let userId := match data.userContext with
    | some u => jsToLower u.id
    | none => ""
  let realm := match data.userContext with
    | some u => jsToLower u.realm
    | none => ""
  let clientAddr := jsToLower (match data.metadata with
    | some m => m.clientAddress
    | none => "")
  if jsIncludes userId "xray" then true
  else if jsIncludes realm "xray" then true
  else if clientAddr = "127.0.0.1" ∨ clientAddr = "::1" ∨
      clientAddr = "localhost" ∨ jsStartsWith clientAddr "127." then true
  else false

/-! ### worker.ts: checkXrayAvailable -/

/-- The optional chain `response?.data?.status` on the ping response. -/
def pingStatusField (response : Option PingResponse) : Option String :=
  match response with
  | none => none
  | some r =>
    match r.data with
    | none => none
    | some d => d.status

/-- `checkXrayAvailable` from worker.ts: GET the ping endpoint; true iff the
call succeeded and `response?.data?.status === 'pong'`; a thrown error is
caught and yields false.  Also returns the calls performed. -/
def checkXrayAvailable (env : Env) : Bool × List HttpCall :=
  match env.pingResult with
  | Except.error _ => (false, [HttpCall.ping])
  | Except.ok response =>
    (decide (pingStatusField response = some "pong"), [HttpCall.ping])

/-! ### worker.ts: getArtifactScanStatus -/

/-- The optional chain `response?.data?.overall?.status` on the scan-status
response. -/
def overallStatusField (response : Option StatusResponse) : Option String :=
  match response with
  | none => none
  | some r =>
    match r.data with
    | none => none
    | some d =>
      match d.overall with
      | none => none
      | some o => o.status

/-- `getArtifactScanStatus` from worker.ts: POST `{repo, path}` to the
status endpoint; return the overall status string when the response carries
a truthy one (in JS a string is truthy iff nonempty), and `null` (here
`none`) when the call throws or the field is missing or empty.  Also
returns the calls performed. -/
def getArtifactScanStatus (env : Env) (repo : String) (path : String) :
    Option String × List HttpCall :=
  match env.statusResult with
  | Except.error _ => (none, [HttpCall.status repo path])
  | Except.ok response =>
    match overallStatusField response with
    | some s =>
      if s = "" then (none, [HttpCall.status repo path])
      else (some s, [HttpCall.status repo path])
    | none => (none, [HttpCall.status repo path])

/-! ### worker.ts: triggerForceReindexArtifact -/

/-- The status-code probe
`response?.status ?? response?.statusCode ?? response?.status` from
worker.ts (the third disjunct repeats the first, as in the source). -/
def resolveReindexStatusCode (response : Option ReindexResponse) : Option Int :=
  match response with
  | none => none
  | some r =>
    match r.status with
    | some c => some c
    | none =>
      match r.statusCode with
      | some c => some c
      | none => r.status

/-- `triggerForceReindexArtifact` from worker.ts: POST
`{artifacts: [{repository, path}]}` to the force-reindex endpoint; returns
true when the resolved status code is in [200, 300), or (second chance)
when it is undeterminable or at least 200; a thrown error is caught and
yields false.  Also returns the calls performed, recording the request
body. -/
def triggerForceReindexArtifact (env : Env) (repo : String) (path : String) :
    Bool × List HttpCall :=
  let call := HttpCall.reindex [ReindexArtifact.mk repo path]
  match env.reindexResult with
  | Except.error _ => (false, [call])
  | Except.ok response =>
    match resolveReindexStatusCode response with
    | some c =>
      if 200 ≤ c ∧ c < 300 then (true, [call])
      else if 200 ≤ c then (true, [call])
      else (false, [call])
    | none => (true, [call])

/-! ### worker.ts: response literals -/

/-- Response for a request missing repository key or path. -/
def missingIdentityResponse : BeforeDownloadResponse :=
  { status := DownloadStatus.DOWNLOAD_STOP
    message := "Unable to validate artifact. Missing repository or path information."
    headers := [] }

/-- Response for a folder or repository-root target. -/
def folderSkipResponse : BeforeDownloadResponse :=
  { status := DownloadStatus.DOWNLOAD_PROCEED
    message := "Skipping folder/root - scan check only applies to artifacts."
    headers := [] }

/-- Response for Xray's own indexing traffic. -/
def xrayAllowResponse : BeforeDownloadResponse :=
  { status := DownloadStatus.DOWNLOAD_PROCEED
    message := "Allowing Xray indexing request."
    headers := [] }

/-- Response when the Xray liveness probe fails. -/
def xrayUnavailableResponse : BeforeDownloadResponse :=
  { status := DownloadStatus.DOWNLOAD_WARN
    message := "Could not check Xray scan status. Xray may be unavailable. Proceeding with warning."
    headers := [] }

/-- Response when the artifact is scanned; the message interpolates the
scan status (`null` prints as "null", though that branch is unreachable). -/
def scannedResponse (scanStatus : String) : BeforeDownloadResponse :=
  { status := DownloadStatus.DOWNLOAD_PROCEED
    message := "Artifact is scanned (status: " ++ scanStatus ++ "). Proceeding with download."
    headers := [] }

/-- Response after a successful force-reindex trigger. -/
def reindexTriggeredResponse : BeforeDownloadResponse :=
  { status := DownloadStatus.DOWNLOAD_STOP
    message := "Artifact is not scanned. Reindex has been triggered for this artifact. Please try again shortly once the reindex completes."
    headers := [] }

/-- Response after a failed force-reindex trigger. -/
def reindexFailedResponse : BeforeDownloadResponse :=
  { status := DownloadStatus.DOWNLOAD_STOP
    message := "Artifact is not scanned. Could not trigger reindex. Please run \"Reindex existing artifacts\" in Xray for this repo, then try again."
    headers := [] }

/-- Response produced by the outermost catch from a thrown error message. -/
def uncaughtFaultResponse (errMsg : String) : BeforeDownloadResponse :=
  { status := DownloadStatus.DOWNLOAD_STOP
    message := "Error during scan validation: " ++ errMsg ++ ". Please try again."
    headers := [] }

/-! ### worker.ts: the try-block and the outer catch -/

/-- Body of the `try` in the default export (lines 56-102 of worker.ts):
liveness probe, then scan-status query, then (when not scanned) the
force-reindex trigger.  The result is `Except.ok` of the response the block
returns (in this model no stage rethrows: each helper catches its own
errors, exactly as in the source), paired with the trace of calls made. -/
def tryBlock (env : Env) (repoKey : String) (artifactPath : String) :
    Except String BeforeDownloadResponse × List HttpCall :=
  let ping := checkXrayAvailable env
  if ping.1 = false then
    (Except.ok xrayUnavailableResponse, ping.2)
  else
    let statusQ := getArtifactScanStatus env repoKey artifactPath
    let scanStatus := statusQ.1
    if scanStatus ≠ none ∧ (scanStatus = some "DONE" ∨ scanStatus = some "PARTIAL") then
      (Except.ok (scannedResponse (scanStatus.getD "null")), ping.2 ++ statusQ.2)
    else
      let reindex := triggerForceReindexArtifact env repoKey artifactPath
      if reindex.1 = true then
        (Except.ok reindexTriggeredResponse, ping.2 ++ statusQ.2 ++ reindex.2)
      else
        (Except.ok reindexFailedResponse, ping.2 ++ statusQ.2 ++ reindex.2)

/-- The outermost `catch` (lines 103-111 of worker.ts): a response that the
try-block produced is passed through; a thrown error is converted to a
`DOWNLOAD_STOP` response embedding the error's message. -/
def outerCatch (body : Except String BeforeDownloadResponse) : BeforeDownloadResponse :=
  match body with
  | Except.ok r => r
  | Except.error errMsg => uncaughtFaultResponse errMsg

/-- The default export of worker.ts: the full request handler.  Returns the
response together with the trace of outbound HTTP calls performed. -/
def worker (env : Env) (data : BeforeDownloadRequest) :
    BeforeDownloadResponse × List HttpCall :=
  let repoKey := reqRepoKey data
  let artifactPath := reqArtifactPath data
  if jsFalsyOptStr repoKey = true ∨ jsFalsyOptStr artifactPath = true then
    (missingIdentityResponse, [])
  else if reqIsFolderFlag data = true ∨ reqIsRootFlag data = true then
    (folderSkipResponse, [])
  else if isXrayIndexingRequest data = true then
    (xrayAllowResponse, [])
  else
    let body := tryBlock env (repoKey.getD "") (artifactPath.getD "")
    (outerCatch body.1, body.2)

/-! ### Trace predicates and well-formedness, used to state the claims -/

/-- Is this call a liveness ping? -/
def isPingCall : HttpCall → Bool
  | HttpCall.ping => true
  | _ => false

/-- Is this call a scan-status query? -/
def isStatusCall : HttpCall → Bool
  | HttpCall.status _ _ => true
  | _ => false

/-- Is this call a force-reindex trigger? -/
def isReindexCall : HttpCall → Bool
  | HttpCall.reindex _ => true
  | _ => false

/-- A disposition the boundary understands: proceed, stop, or warn. -/
def wellFormedDisposition (r : BeforeDownloadResponse) : Prop :=
  r.status = DownloadStatus.DOWNLOAD_PROCEED ∨
  r.status = DownloadStatus.DOWNLOAD_STOP ∨
  r.status = DownloadStatus.DOWNLOAD_WARN

/-- The request passes all three applicability guards: nonempty repository
key and path, not a folder or root, and not Xray's own traffic. -/
def ApplicableRequest (data : BeforeDownloadRequest) : Prop :=
  jsFalsyOptStr (reqRepoKey data) = false ∧
  jsFalsyOptStr (reqArtifactPath data) = false ∧
  reqIsFolderFlag data = false ∧
  reqIsRootFlag data = false ∧
  isXrayIndexingRequest data = false

instance (data : BeforeDownloadRequest) : Decidable (ApplicableRequest data) := by
  unfold ApplicableRequest
  infer_instance

/-- The liveness probe succeeds: the ping call returns and its
`response?.data?.status` field is `"pong"`. -/
def PingAlive (env : Env) : Prop :=
  ∃ r, env.pingResult = Except.ok r ∧ pingStatusField r = some "pong"

/-- The liveness probe fails: the ping call throws, or returns anything
whose `response?.data?.status` field is not `"pong"`. -/
def PingNotAlive (env : Env) : Prop :=
  (∃ e, env.pingResult = Except.error e) ∨
  (∃ r, env.pingResult = Except.ok r ∧ pingStatusField r ≠ some "pong")

/-- The status query throws, or returns a payload without a recognizable
(truthy) overall-status field: the `Unknown` verdict of the spec. -/
def StatusQueryUnknown (env : Env) : Prop :=
  (∃ e, env.statusResult = Except.error e) ∨
  (∃ r, env.statusResult = Except.ok r ∧
    (overallStatusField r = none ∨ overallStatusField r = some ""))

/-- The status query succeeds and returns the concrete overall status `s`. -/
def StatusConcrete (env : Env) (s : String) : Prop :=
  ∃ r, env.statusResult = Except.ok r ∧ overallStatusField r = some s

/-! ### Concrete sample requests and collaborator behaviours, used by
counterexamples and witnesses -/

/-- An ordinary applicable request: the end-to-end example of the spec. -/
def reqSample : BeforeDownloadRequest :=
  { metadata := some
      { repoPath := some
          { key := "generic-local", path := "a/b/lib.jar", id := ""
            isRoot := false, isFolder := false }
        clientAddress := "10.0.0.5" }
    userContext := some { id := "alice", isToken := false, realm := "internal" } }

/-- A folder request whose repository key is the empty string. -/
def reqEmptyKeyFolder : BeforeDownloadRequest :=
  { metadata := some
      { repoPath := some
          { key := "", path := "some/dir", id := ""
            isRoot := false, isFolder := true }
        clientAddress := "10.0.0.5" }
    userContext := some { id := "alice", isToken := false, realm := "internal" } }

/-- A folder request with nonempty repository key and path. -/
def reqFolderOk : BeforeDownloadRequest :=
  { metadata := some
      { repoPath := some
          { key := "generic-local", path := "some/dir", id := ""
            isRoot := false, isFolder := true }
        clientAddress := "10.0.0.5" }
    userContext := some { id := "alice", isToken := false, realm := "internal" } }

/-- A request whose originator identity contains "xray". -/
def reqXrayUser : BeforeDownloadRequest :=
  { metadata := some
      { repoPath := some
          { key := "generic-local", path := "a/b/lib.jar", id := ""
            isRoot := false, isFolder := false }
        clientAddress := "10.0.0.5" }
    userContext := some { id := "Xray-Indexer", isToken := true, realm := "internal" } }

/-- A request with no metadata at all (repository key and path absent). -/
def reqNoMetadata : BeforeDownloadRequest :=
  { metadata := none
    userContext := some { id := "alice", isToken := false, realm := "internal" } }

/-- Collaborators all healthy; the artifact's status is DONE. -/
def envDone : Env :=
  { pingResult := Except.ok (some { data := some { status := some "pong" } })
    statusResult := Except.ok (some { data := some { overall := some { status := some "DONE" } } })
    reindexResult := Except.ok (some { status := some 200, statusCode := none }) }

/-- Ping alive; the artifact's status is NOT_SCANNED; reindex accepts with
HTTP 200. -/
def envNotScanned : Env :=
  { pingResult := Except.ok (some { data := some { status := some "pong" } })
    statusResult := Except.ok (some { data := some { overall := some { status := some "NOT_SCANNED" } } })
    reindexResult := Except.ok (some { status := some 200, statusCode := none }) }

/-- Ping alive; the status query throws; reindex accepts with HTTP 200. -/
def envStatusThrows : Env :=
  { pingResult := Except.ok (some { data := some { status := some "pong" } })
    statusResult := Except.error "boom"
    reindexResult := Except.ok (some { status := some 200, statusCode := none }) }

/-- Ping alive; status NOT_SCANNED; the reindex call returns HTTP 500 — a
non-2xx response. -/
def envReindex500 : Env :=
  { pingResult := Except.ok (some { data := some { status := some "pong" } })
    statusResult := Except.ok (some { data := some { overall := some { status := some "NOT_SCANNED" } } })
    reindexResult := Except.ok (some { status := some 500, statusCode := none }) }

/-- Ping alive; status NOT_SCANNED; the reindex call returns HTTP 204. -/
def envReindex204 : Env :=
  { pingResult := Except.ok (some { data := some { status := some "pong" } })
    statusResult := Except.ok (some { data := some { overall := some { status := some "NOT_SCANNED" } } })
    reindexResult := Except.ok (some { status := some 204, statusCode := none }) }

/-- The ping call itself throws (scanner unreachable). -/
def envPingDown : Env :=
  { pingResult := Except.error "ECONNREFUSED"
    statusResult := Except.ok (some { data := some { overall := some { status := some "DONE" } } })
    reindexResult := Except.ok (some { status := some 200, statusCode := none }) }

/-! ### Shared helper lemmas -/

/-- The liveness probe performs exactly one ping call, whatever happens. -/
theorem checkXrayAvailable_calls (env : Env) :
    (checkXrayAvailable env).2 = [HttpCall.ping] := by
  unfold checkXrayAvailable
  cases h : env.pingResult <;> simp

/-- The status query performs exactly one status call, whatever happens. -/
theorem getArtifactScanStatus_calls (env : Env) (repo path : String) :
    (getArtifactScanStatus env repo path).2 = [HttpCall.status repo path] := by
  unfold getArtifactScanStatus
  cases h : env.statusResult with
  | error e => simp
  | ok response =>
    cases hf : overallStatusField response with
    | none => simp [hf]
    | some s =>
      by_cases hs : s = "" <;> simp [hf, hs]

/-- The remediation trigger performs exactly one reindex call, with a
single-element artifact list holding the given repository and path,
whatever happens. -/
theorem triggerForceReindexArtifact_calls (env : Env) (repo path : String) :
    (triggerForceReindexArtifact env repo path).2 =
      [HttpCall.reindex [ReindexArtifact.mk repo path]] := by
  unfold triggerForceReindexArtifact
  cases h : env.reindexResult with
  | error e => simp
  | ok response =>
    cases hc : resolveReindexStatusCode response with
    | none => simp [hc]
    | some c =>
      by_cases h1 : 200 ≤ c ∧ c < 300
      · simp [hc, h1]
      · by_cases h2 : 200 ≤ c <;> simp [hc, h1, h2]

/-- On an applicable request the handler runs the try-block on the
request's repository key and path. -/
theorem worker_applicable_eq (env : Env) (data : BeforeDownloadRequest)
    (h : ApplicableRequest data) :
    worker env data =
      (outerCatch (tryBlock env ((reqRepoKey data).getD "") ((reqArtifactPath data).getD "")).1,
       (tryBlock env ((reqRepoKey data).getD "") ((reqArtifactPath data).getD "")).2) := by
  obtain ⟨h1, h2, h3, h4, h5⟩ := h
  simp [worker, h1, h2, h3, h4, h5]

/-- A successful liveness probe makes `checkXrayAvailable` return true. -/
theorem checkXrayAvailable_of_alive (env : Env) (h : PingAlive env) :
    (checkXrayAvailable env).1 = true := by
  obtain ⟨r, hr, hs⟩ := h
  simp [checkXrayAvailable, hr, hs]

/-- A failed liveness probe makes `checkXrayAvailable` return false. -/
theorem checkXrayAvailable_of_down (env : Env) (h : PingNotAlive env) :
    (checkXrayAvailable env).1 = false := by
  rcases h with ⟨e, he⟩ | ⟨r, hr, hs⟩
  · simp [checkXrayAvailable, he]
  · simp [checkXrayAvailable, hr, hs]

/-- An unknown-status query resolves to the `null` scan status. -/
theorem getArtifactScanStatus_of_unknown (env : Env) (repo path : String)
    (h : StatusQueryUnknown env) :
    (getArtifactScanStatus env repo path).1 = none := by
  rcases h with ⟨e, he⟩ | ⟨r, hr, hf | hf⟩
  · simp [getArtifactScanStatus, he]
  · simp [getArtifactScanStatus, hr, hf]
  · simp [getArtifactScanStatus, hr, hf]

/-- A concrete nonempty overall status is returned as the scan status. -/
theorem getArtifactScanStatus_of_concrete (env : Env) (repo path s : String)
    (h : StatusConcrete env s) (hne : s ≠ "") :
    (getArtifactScanStatus env repo path).1 = some s := by
  obtain ⟨r, hr, hf⟩ := h
  simp [getArtifactScanStatus, hr, hf, hne]

/-- With the scanner alive and a DONE/PARTIAL status the try-block returns
the scanned response after a ping and a status call only. -/
theorem tryBlock_scanned (env : Env) (r p s : String)
    (hp : (checkXrayAvailable env).1 = true)
    (hs : (getArtifactScanStatus env r p).1 = some s)
    (hd : s = "DONE" ∨ s = "PARTIAL") :
    tryBlock env r p =
      (Except.ok (scannedResponse s), [HttpCall.ping, HttpCall.status r p]) := by
  rcases hd with hd | hd <;> subst hd <;>
    simp [tryBlock, hp, hs, checkXrayAvailable_calls, getArtifactScanStatus_calls]

/-- With the scanner alive and a scan status other than DONE/PARTIAL
(including `null`) the try-block triggers the reindex call and stops. -/
theorem tryBlock_not_scanned (env : Env) (r p : String) (st : Option String)
    (hp : (checkXrayAvailable env).1 = true)
    (hs : (getArtifactScanStatus env r p).1 = st)
    (h1 : st ≠ some "DONE") (h2 : st ≠ some "PARTIAL") :
    tryBlock env r p =
      (Except.ok (if (triggerForceReindexArtifact env r p).1 = true
          then reindexTriggeredResponse else reindexFailedResponse),
       [HttpCall.ping, HttpCall.status r p,
        HttpCall.reindex [ReindexArtifact.mk r p]]) := by
  have hcond : ¬(st ≠ none ∧ (st = some "DONE" ∨ st = some "PARTIAL")) := by
    rintro ⟨-, hd | hd⟩
    · exact h1 hd
    · exact h2 hd
  by_cases htr : (triggerForceReindexArtifact env r p).1 = true <;>
    simp [tryBlock, hp, hs, hcond, htr, checkXrayAvailable_calls,
      getArtifactScanStatus_calls, triggerForceReindexArtifact_calls]

/-- With the scanner down the try-block returns the warning response after
the ping call only. -/
theorem tryBlock_ping_down (env : Env) (r p : String)
    (hp : (checkXrayAvailable env).1 = false) :
    tryBlock env r p = (Except.ok xrayUnavailableResponse, [HttpCall.ping]) := by
  simp [tryBlock, hp, checkXrayAvailable_calls]

/-- A thrown reindex call is classified as not triggered. -/
theorem trigger_of_thrown (env : Env) (r p e : String)
    (h : env.reindexResult = Except.error e) :
    (triggerForceReindexArtifact env r p).1 = false := by
  simp [triggerForceReindexArtifact, h]

/-- A determinable status code below 200 is classified as not triggered. -/
theorem trigger_of_low_code (env : Env) (r p : String)
    (rr : Option ReindexResponse) (c : Int)
    (h : env.reindexResult = Except.ok rr)
    (hc : resolveReindexStatusCode rr = some c) (hlt : c < 200) :
    (triggerForceReindexArtifact env r p).1 = false := by
  have h1 : ¬(200 ≤ c ∧ c < 300) := by omega
  have h2 : ¬(200 ≤ c) := by omega
  simp [triggerForceReindexArtifact, h, hc, h1, h2]

/-- A determinable status code of at least 200 is classified as triggered
(this includes every non-2xx code of 300 and above). -/
theorem trigger_of_high_code (env : Env) (r p : String)
    (rr : Option ReindexResponse) (c : Int)
    (h : env.reindexResult = Except.ok rr)
    (hc : resolveReindexStatusCode rr = some c) (hge : 200 ≤ c) :
    (triggerForceReindexArtifact env r p).1 = true := by
  by_cases h1 : c < 300 <;> simp [triggerForceReindexArtifact, h, hc, hge, h1]

/-- An undeterminable status code is classified optimistically as
triggered. -/
theorem trigger_of_no_code (env : Env) (r p : String)
    (rr : Option ReindexResponse)
    (h : env.reindexResult = Except.ok rr)
    (hc : resolveReindexStatusCode rr = none) :
    (triggerForceReindexArtifact env r p).1 = true := by
  simp [triggerForceReindexArtifact, h, hc]

/-- The try-block always returns (without throwing) one of the four
responses of its branches. -/
theorem tryBlock_resp_cases (env : Env) (r p : String) :
    (tryBlock env r p).1 = Except.ok xrayUnavailableResponse ∨
    (∃ s, (tryBlock env r p).1 = Except.ok (scannedResponse s)) ∨
    (tryBlock env r p).1 = Except.ok reindexTriggeredResponse ∨
    (tryBlock env r p).1 = Except.ok reindexFailedResponse := by
  by_cases hp : (checkXrayAvailable env).1 = false
  · left
    simp [tryBlock, hp]
  · by_cases hs : (getArtifactScanStatus env r p).1 ≠ none ∧
        ((getArtifactScanStatus env r p).1 = some "DONE" ∨
         (getArtifactScanStatus env r p).1 = some "PARTIAL")
    · right; left
      exact ⟨(getArtifactScanStatus env r p).1.getD "null", by simp [tryBlock, hp, hs]⟩
    · by_cases ht : (triggerForceReindexArtifact env r p).1 = true
      · right; right; left
        simp [tryBlock, hp, hs, ht]
      · right; right; right
        simp [tryBlock, hp, hs, ht]

/-- Every branch of the handler yields a proceed, stop, or warn status. -/
theorem worker_wellFormed (env : Env) (data : BeforeDownloadRequest) :
    wellFormedDisposition (worker env data).1 := by
  by_cases h1 : jsFalsyOptStr (reqRepoKey data) = true ∨ jsFalsyOptStr (reqArtifactPath data) = true
  · simp [worker, h1, missingIdentityResponse, wellFormedDisposition]
  · by_cases h2 : reqIsFolderFlag data = true ∨ reqIsRootFlag data = true
    · simp [worker, h1, h2, folderSkipResponse, wellFormedDisposition]
    · by_cases h3 : isXrayIndexingRequest data = true
      · simp [worker, h1, h2, h3, xrayAllowResponse, wellFormedDisposition]
      · have hw : (worker env data).1 =
            outerCatch (tryBlock env ((reqRepoKey data).getD "") ((reqArtifactPath data).getD "")).1 := by
          simp [worker, h1, h2, h3]
        rw [hw]
        rcases tryBlock_resp_cases env ((reqRepoKey data).getD "") ((reqArtifactPath data).getD "")
          with h | ⟨s, h⟩ | h | h <;>
          simp [outerCatch, h, wellFormedDisposition, xrayUnavailableResponse, scannedResponse,
            reindexTriggeredResponse, reindexFailedResponse]

/-- The try-block's trace is one of the three sequential prefixes of
ping, status, reindex. -/
theorem tryBlock_trace_cases (env : Env) (r p : String) :
    (tryBlock env r p).2 = [HttpCall.ping] ∨
    (tryBlock env r p).2 = [HttpCall.ping, HttpCall.status r p] ∨
    (tryBlock env r p).2 = [HttpCall.ping, HttpCall.status r p,
      HttpCall.reindex [ReindexArtifact.mk r p]] := by
  by_cases hp : (checkXrayAvailable env).1 = false
  · left
    simp [tryBlock, hp, checkXrayAvailable_calls]
  · by_cases hs : (getArtifactScanStatus env r p).1 ≠ none ∧
        ((getArtifactScanStatus env r p).1 = some "DONE" ∨
         (getArtifactScanStatus env r p).1 = some "PARTIAL")
    · right; left
      simp [tryBlock, hp, hs, checkXrayAvailable_calls, getArtifactScanStatus_calls]
    · right; right
      by_cases ht : (triggerForceReindexArtifact env r p).1 = true <;>
        simp [tryBlock, hp, hs, ht, checkXrayAvailable_calls, getArtifactScanStatus_calls,
          triggerForceReindexArtifact_calls]

/-- The handler's trace is empty or one of the three sequential prefixes of
ping, status, reindex on the request's own repository key and path. -/
theorem worker_trace_cases (env : Env) (data : BeforeDownloadRequest) :
    (worker env data).2 = [] ∨
    (worker env data).2 = [HttpCall.ping] ∨
    (worker env data).2 =
      [HttpCall.ping, HttpCall.status ((reqRepoKey data).getD "") ((reqArtifactPath data).getD "")] ∨
    (worker env data).2 =
      [HttpCall.ping, HttpCall.status ((reqRepoKey data).getD "") ((reqArtifactPath data).getD ""),
       HttpCall.reindex [ReindexArtifact.mk ((reqRepoKey data).getD "") ((reqArtifactPath data).getD "")]] := by
  by_cases h1 : jsFalsyOptStr (reqRepoKey data) = true ∨ jsFalsyOptStr (reqArtifactPath data) = true
  · left
    simp [worker, h1]
  · by_cases h2 : reqIsFolderFlag data = true ∨ reqIsRootFlag data = true
    · left
      simp [worker, h1, h2]
    · by_cases h3 : isXrayIndexingRequest data = true
      · left
        simp [worker, h1, h2, h3]
      · have hw : (worker env data).2 =
            (tryBlock env ((reqRepoKey data).getD "") ((reqArtifactPath data).getD "")).2 := by
          simp [worker, h1, h2, h3]
        rw [hw]
        rcases tryBlock_trace_cases env ((reqRepoKey data).getD "") ((reqArtifactPath data).getD "")
          with h | h | h
        · right; left; exact h
        · right; right; left; exact h
        · right; right; right; exact h

/-- Lowercasing a string preserves the `127.` prefix (digits and the dot
are fixed by `Char.toLower`). -/
theorem jsStartsWith_toLower_127 (s : String)
    (h : jsStartsWith s "127." = true) :
    jsStartsWith (jsToLower s) "127." = true := by
  unfold jsStartsWith at h
  rw [ List.isPrefixOf_iff_prefix] at h
  have hm := h.map Char.toLower
  have hfix : "127.".data.map Char.toLower = "127.".data := by decide
  rw [hfix] at hm
  unfold jsStartsWith jsToLower
  rw [ List.isPrefixOf_iff_prefix]
  exact hm

/-- An if-then-true chain of the shape used by `isXrayIndexingRequest`
evaluates to true when any of its three conditions holds. -/
theorem ite_chain_true {a b : Bool} {p : Prop} [Decidable p]
    (h : a = true ∨ b = true ∨ p) :
    (if a = true then true else if b = true then true else if p then true else false) = true := by
  rcases h with h | h | h
  · simp [h]
  · by_cases ha : a = true <;> simp [ha, h]
  · by_cases ha : a = true
    · simp [ha]
    · by_cases hb : b = true <;> simp [ha, hb, h]

/-- The scanner-self-traffic recognizer fires whenever the originator's id
or realm contains "xray" ignoring case, or the raw client address is one of
the loopback forms. -/
theorem isXrayIndexingRequest_true_of (data : BeforeDownloadRequest)
    (h : (∃ u, data.userContext = some u ∧
           (jsIncludes (jsToLower u.id) "xray" = true ∨
            jsIncludes (jsToLower u.realm) "xray" = true)) ∨
         (∃ m, data.metadata = some m ∧
           (m.clientAddress = "127.0.0.1" ∨ m.clientAddress = "::1" ∨
            m.clientAddress = "localhost" ∨ jsStartsWith m.clientAddress "127." = true))) :
    isXrayIndexingRequest data = true := by
  unfold isXrayIndexingRequest
  apply ite_chain_true
  rcases h with ⟨u, hu, hid | hrealm⟩ | ⟨m, hm, haddr⟩
  · left
    rw [hu]
    exact hid
  · right; left
    rw [hu]
    exact hrealm
  · right; right
    rw [hm]
    rcases haddr with ha | ha | ha | ha
    · left
      show jsToLower m.clientAddress = "127.0.0.1"
      rw [ha]
      decide
    · right; left
      show jsToLower m.clientAddress = "::1"
      rw [ha]
      decide
    · right; right; left
      show jsToLower m.clientAddress = "localhost"
      rw [ha]
      decide
    · right; right; right
      show jsStartsWith (jsToLower m.clientAddress) "127." = true
      exact jsStartsWith_toLower_127 m.clientAddress ha

/-! ### Claim theorems -/

/-- C1 counterexample: on an applicable request with the scanner alive but
the status query throwing (verdict Unknown), the claim says the reindex
endpoint is not invoked; in the code the scan status is `null`, `isScanned`
is false, and the reindex endpoint IS invoked (exactly one reindex call
appears in the trace).  The disposition is Stop, as the claim says. -/
theorem claim_C1_counterexample :
    ApplicableRequest reqSample ∧
    PingAlive envStatusThrows ∧
    envStatusThrows.statusResult = Except.error "boom" ∧
    (worker envStatusThrows reqSample).1.status = DownloadStatus.DOWNLOAD_STOP ∧
    ((worker envStatusThrows reqSample).2.filter isReindexCall).length = 1 :=
  ⟨by decide, ⟨_, rfl, rfl⟩, rfl, by decide, by decide⟩

/-- C1 (amended): for every applicable request where the liveness probe
succeeds but the status query throws or returns a payload without a
recognizable overall-status field (verdict Unknown), the disposition is
Stop and the reindex endpoint IS invoked exactly once — the code treats
`Unknown` exactly like `Unscanned`, so a remediation outcome is also
produced when the verdict is Unknown. -/
theorem claim_C1_theorem (env : Env) (data : BeforeDownloadRequest)
    (happ : ApplicableRequest data) (hping : PingAlive env)
    (hst : StatusQueryUnknown env) :
    (worker env data).1.status = DownloadStatus.DOWNLOAD_STOP ∧
    ((worker env data).2.filter isReindexCall).length = 1 := by
  have hp := checkXrayAvailable_of_alive env hping
  have hs := getArtifactScanStatus_of_unknown env
    ((reqRepoKey data).getD "") ((reqArtifactPath data).getD "") hst
  have hw := worker_applicable_eq env data happ
  have htb := tryBlock_not_scanned env
    ((reqRepoKey data).getD "") ((reqArtifactPath data).getD "") none hp hs
    (by simp) (by simp)
  rw [hw, htb]
  constructor
  · by_cases ht : (triggerForceReindexArtifact env
        ((reqRepoKey data).getD "") ((reqArtifactPath data).getD "")).1 = true <;>
      simp [outerCatch, ht, reindexTriggeredResponse, reindexFailedResponse]
  · simp [isReindexCall, List.filter]

/-- C1 witness: the amended theorem applied to a concrete applicable
request with the scanner alive and the status query throwing. -/
theorem claim_C1_witness :
    ApplicableRequest reqSample ∧ PingAlive envStatusThrows ∧
    StatusQueryUnknown envStatusThrows ∧
    ((worker envStatusThrows reqSample).1.status = DownloadStatus.DOWNLOAD_STOP ∧
     ((worker envStatusThrows reqSample).2.filter isReindexCall).length = 1) :=
  ⟨by decide, ⟨_, rfl, rfl⟩, Or.inl ⟨"boom", rfl⟩,
   claim_C1_theorem envStatusThrows reqSample (by decide) ⟨_, rfl, rfl⟩ (Or.inl ⟨"boom", rfl⟩)⟩

/-- C2: (a) every reindex call the handler ever makes carries a body whose
`artifacts` list is exactly the single element holding the requesting
download's repository key and path; (b) for every applicable request where
liveness succeeds and the status query returns a concrete (truthy) value
other than DONE or PARTIAL, the reindex endpoint is called exactly once
with that single-element body, and the disposition is Stop. -/
theorem claim_C2_theorem :
    (∀ (env : Env) (data : BeforeDownloadRequest) (arts : List ReindexArtifact),
        HttpCall.reindex arts ∈ (worker env data).2 →
        arts = [ReindexArtifact.mk ((reqRepoKey data).getD "") ((reqArtifactPath data).getD "")]) ∧
    (∀ (env : Env) (data : BeforeDownloadRequest) (s : String),
        ApplicableRequest data → PingAlive env → StatusConcrete env s →
        s ≠ "" → s ≠ "DONE" → s ≠ "PARTIAL" →
        ((worker env data).2.filter isReindexCall) =
          [HttpCall.reindex
            [ReindexArtifact.mk ((reqRepoKey data).getD "") ((reqArtifactPath data).getD "")]] ∧
        (worker env data).1.status = DownloadStatus.DOWNLOAD_STOP) := by
  constructor
  · intro env data arts hmem
    rcases worker_trace_cases env data with h | h | h | h <;> rw [h] at hmem <;>
      simp [isReindexCall] at hmem
    exact hmem
  · intro env data s happ hping hst hne hnd hnp
    have hp := checkXrayAvailable_of_alive env hping
    have hs := getArtifactScanStatus_of_concrete env
      ((reqRepoKey data).getD "") ((reqArtifactPath data).getD "") s hst hne
    have hw := worker_applicable_eq env data happ
    have htb := tryBlock_not_scanned env
      ((reqRepoKey data).getD "") ((reqArtifactPath data).getD "") (some s) hp hs
      (by simp [hnd]) (by simp [hnp])
    rw [hw, htb]
    constructor
    · simp [isReindexCall, List.filter]
    · by_cases ht : (triggerForceReindexArtifact env
          ((reqRepoKey data).getD "") ((reqArtifactPath data).getD "")).1 = true <;>
        simp [outerCatch, ht, reindexTriggeredResponse, reindexFailedResponse]

/-- C2 witness: part (b) of the theorem applied to the concrete request and
an environment where the status query answers "NOT_SCANNED". -/
theorem claim_C2_witness :
    ApplicableRequest reqSample ∧ PingAlive envNotScanned ∧
    StatusConcrete envNotScanned "NOT_SCANNED" ∧
    (((worker envNotScanned reqSample).2.filter isReindexCall) =
       [HttpCall.reindex
         [ReindexArtifact.mk ((reqRepoKey reqSample).getD "") ((reqArtifactPath reqSample).getD "")]] ∧
     (worker envNotScanned reqSample).1.status = DownloadStatus.DOWNLOAD_STOP) :=
  ⟨by decide, ⟨_, rfl, rfl⟩, ⟨_, rfl, rfl⟩,
   claim_C2_theorem.2 envNotScanned reqSample "NOT_SCANNED" (by decide)
     ⟨_, rfl, rfl⟩ ⟨_, rfl, rfl⟩ (by decide) (by decide) (by decide)⟩

/-- C3 counterexample: the reindex call returns HTTP 500 — a non-2xx
status — yet the disposition message is the "remediation was triggered"
message, not the manual-reindex guidance the claim requires for every
non-2xx response. -/
theorem claim_C3_counterexample :
    envReindex500.reindexResult = Except.ok (some { status := some 500, statusCode := none }) ∧
    ¬(200 ≤ (500 : Int) ∧ (500 : Int) < 300) ∧
    (worker envReindex500 reqSample).1 = reindexTriggeredResponse ∧
    (worker envReindex500 reqSample).1.message ≠ reindexFailedResponse.message :=
  ⟨rfl, by decide, by decide, by decide⟩

/-- C3 (amended): for every reindex invocation, if the call returns a
response whose resolved status code is at least 200 (which includes every
2xx), or whose status code cannot be determined, the disposition is Stop
with the remediation-triggered message; if the call throws, or returns a
response with a determinable status code below 200, the disposition is Stop
with the manual-reindex guidance message.  (Non-2xx codes of 300 and above
count as triggered, not failed.) -/
theorem claim_C3_theorem (env : Env) (data : BeforeDownloadRequest) (s : String)
    (happ : ApplicableRequest data) (hping : PingAlive env)
    (hst : StatusConcrete env s) (hne : s ≠ "") (hnd : s ≠ "DONE") (hnp : s ≠ "PARTIAL") :
    (worker env data).1.status = DownloadStatus.DOWNLOAD_STOP ∧
    (∀ e, env.reindexResult = Except.error e →
        (worker env data).1.message = reindexFailedResponse.message) ∧
    (∀ rr c, env.reindexResult = Except.ok rr → resolveReindexStatusCode rr = some c →
        c < 200 → (worker env data).1.message = reindexFailedResponse.message) ∧
    (∀ rr c, env.reindexResult = Except.ok rr → resolveReindexStatusCode rr = some c →
        200 ≤ c → (worker env data).1.message = reindexTriggeredResponse.message) ∧
    (∀ rr, env.reindexResult = Except.ok rr → resolveReindexStatusCode rr = none →
        (worker env data).1.message = reindexTriggeredResponse.message) := by
  have hp := checkXrayAvailable_of_alive env hping
  have hs := getArtifactScanStatus_of_concrete env
    ((reqRepoKey data).getD "") ((reqArtifactPath data).getD "") s hst hne
  have hw := worker_applicable_eq env data happ
  have htb := tryBlock_not_scanned env
    ((reqRepoKey data).getD "") ((reqArtifactPath data).getD "") (some s) hp hs
    (by simp [hnd]) (by simp [hnp])
  rw [hw, htb]
  refine ⟨?_, ?_, ?_, ?_, ?_⟩
  · by_cases ht : (triggerForceReindexArtifact env
        ((reqRepoKey data).getD "") ((reqArtifactPath data).getD "")).1 = true <;>
      simp [outerCatch, ht, reindexTriggeredResponse, reindexFailedResponse]
  · intro e he
    have ht := trigger_of_thrown env
      ((reqRepoKey data).getD "") ((reqArtifactPath data).getD "") e he
    simp [outerCatch, ht]
  · intro rr c hrr hc hlt
    have ht := trigger_of_low_code env
      ((reqRepoKey data).getD "") ((reqArtifactPath data).getD "") rr c hrr hc hlt
    simp [outerCatch, ht]
  · intro rr c hrr hc hge
    have ht := trigger_of_high_code env
      ((reqRepoKey data).getD "") ((reqArtifactPath data).getD "") rr c hrr hc hge
    simp [outerCatch, ht]
  · intro rr hrr hc
    have ht := trigger_of_no_code env
      ((reqRepoKey data).getD "") ((reqArtifactPath data).getD "") rr hrr hc
    simp [outerCatch, ht]

/-- C3 witness: the amended theorem applied to a concrete request where
the reindex call answers 204 (a 2xx code): the disposition is Stop with
the remediation-triggered message. -/
theorem claim_C3_witness :
    ApplicableRequest reqSample ∧ PingAlive envReindex204 ∧
    StatusConcrete envReindex204 "NOT_SCANNED" ∧
    envReindex204.reindexResult = Except.ok (some { status := some 204, statusCode := none }) ∧
    resolveReindexStatusCode (some { status := some 204, statusCode := none }) = some 204 ∧
    (worker envReindex204 reqSample).1.status = DownloadStatus.DOWNLOAD_STOP ∧
    (worker envReindex204 reqSample).1.message = reindexTriggeredResponse.message :=
  ⟨by decide, ⟨_, rfl, rfl⟩, ⟨_, rfl, rfl⟩, rfl, rfl,
   (claim_C3_theorem envReindex204 reqSample "NOT_SCANNED" (by decide)
     ⟨_, rfl, rfl⟩ ⟨_, rfl, rfl⟩ (by decide) (by decide) (by decide)).1,
   (claim_C3_theorem envReindex204 reqSample "NOT_SCANNED" (by decide)
     ⟨_, rfl, rfl⟩ ⟨_, rfl, rfl⟩ (by decide) (by decide) (by decide)).2.2.2.1
     (some { status := some 204, statusCode := none }) 204 rfl rfl (by decide)⟩

/-- C4 counterexample: a request whose target has `isFolder` true but whose
repository key is the empty string gets disposition Stop (the
missing-identity check runs first), not Proceed as the claim requires
"regardless of the other fields of the request". -/
theorem claim_C4_counterexample :
    reqIsFolderFlag reqEmptyKeyFolder = true ∧
    worker envDone reqEmptyKeyFolder = (missingIdentityResponse, []) ∧
    (worker envDone reqEmptyKeyFolder).1.status ≠ DownloadStatus.DOWNLOAD_PROCEED :=
  ⟨rfl, rfl, by decide⟩

/-- C4 (amended): for every request whose repository key and path are
present and nonempty and whose target has `isFolder` or `isRoot` set to
true, the disposition is Proceed and none of the liveness, status, or
reindex calls are made; a missing or empty key or path instead takes
precedence and yields Stop. -/
theorem claim_C4_theorem (env : Env) (data : BeforeDownloadRequest)
    (h1 : jsFalsyOptStr (reqRepoKey data) = false)
    (h2 : jsFalsyOptStr (reqArtifactPath data) = false)
    (hf : reqIsFolderFlag data = true ∨ reqIsRootFlag data = true) :
    worker env data = (folderSkipResponse, []) ∧
    (worker env data).1.status = DownloadStatus.DOWNLOAD_PROCEED := by
  rcases hf with hf | hf <;>
    exact ⟨by simp [worker, h1, h2, hf], by simp [worker, h1, h2, hf, folderSkipResponse]⟩

/-- C4 witness: the amended theorem applied to a folder request with
nonempty repository key and path. -/
theorem claim_C4_witness :
    jsFalsyOptStr (reqRepoKey reqFolderOk) = false ∧
    jsFalsyOptStr (reqArtifactPath reqFolderOk) = false ∧
    reqIsFolderFlag reqFolderOk = true ∧
    (worker envDone reqFolderOk = (folderSkipResponse, []) ∧
     (worker envDone reqFolderOk).1.status = DownloadStatus.DOWNLOAD_PROCEED) :=
  ⟨by decide, by decide, rfl,
   claim_C4_theorem envDone reqFolderOk (by decide) (by decide) (Or.inl rfl)⟩

/-- C5: the outermost catch converts any error thrown out of resolution or
remediation into a Stop disposition whose message embeds the thrown error's
message verbatim; and for every request and every collaborator behaviour
the handler returns a well-formed disposition (Proceed, Stop, or Warn) —
no fault escapes the handler. -/
theorem claim_C5_theorem :
    (∀ errMsg : String,
        outerCatch (Except.error errMsg) = uncaughtFaultResponse errMsg ∧
        (outerCatch (Except.error errMsg)).status = DownloadStatus.DOWNLOAD_STOP ∧
        (outerCatch (Except.error errMsg)).message =
          "Error during scan validation: " ++ errMsg ++ ". Please try again.") ∧
    (∀ (env : Env) (data : BeforeDownloadRequest),
        wellFormedDisposition (worker env data).1) :=
  ⟨fun _ => ⟨rfl, rfl, rfl⟩, worker_wellFormed⟩

/-- C6: for every applicable request where the liveness probe throws or
returns anything other than the "pong" signal, the disposition is
ProceedWithWarning (DOWNLOAD_WARN), and neither the status endpoint nor
the reindex endpoint is called — the trace is exactly one ping. -/
theorem claim_C6_theorem (env : Env) (data : BeforeDownloadRequest)
    (happ : ApplicableRequest data) (hping : PingNotAlive env) :
    (worker env data).1 = xrayUnavailableResponse ∧
    (worker env data).1.status = DownloadStatus.DOWNLOAD_WARN ∧
    (worker env data).2 = [HttpCall.ping] ∧
    ((worker env data).2.filter isStatusCall) = [] ∧
    ((worker env data).2.filter isReindexCall) = [] := by
  have hp := checkXrayAvailable_of_down env hping
  have hw := worker_applicable_eq env data happ
  have htb := tryBlock_ping_down env
    ((reqRepoKey data).getD "") ((reqArtifactPath data).getD "") hp
  rw [hw, htb]
  exact ⟨rfl, rfl, rfl, rfl, rfl⟩

/-- C6 witness: the theorem applied to a concrete applicable request with
the ping call throwing. -/
theorem claim_C6_witness :
    ApplicableRequest reqSample ∧ PingNotAlive envPingDown ∧
    ((worker envPingDown reqSample).1 = xrayUnavailableResponse ∧
     (worker envPingDown reqSample).1.status = DownloadStatus.DOWNLOAD_WARN ∧
     (worker envPingDown reqSample).2 = [HttpCall.ping] ∧
     ((worker envPingDown reqSample).2.filter isStatusCall) = [] ∧
     ((worker envPingDown reqSample).2.filter isReindexCall) = []) :=
  ⟨by decide, Or.inl ⟨"ECONNREFUSED", rfl⟩,
   claim_C6_theorem envPingDown reqSample (by decide) (Or.inl ⟨"ECONNREFUSED", rfl⟩)⟩

/-- C7: for every request with present, nonempty repository key and path
and not a folder/root target, if the originator's identity or realm
contains "xray" ignoring case, or the client address is `127.0.0.1`,
`::1`, `localhost`, or starts with `127.`, then the disposition is Proceed
and no scanning-service call occurs. -/
theorem claim_C7_theorem (env : Env) (data : BeforeDownloadRequest)
    (h1 : jsFalsyOptStr (reqRepoKey data) = false)
    (h2 : jsFalsyOptStr (reqArtifactPath data) = false)
    (h3 : reqIsFolderFlag data = false)
    (h4 : reqIsRootFlag data = false)
    (hx : (∃ u, data.userContext = some u ∧
            (jsIncludes (jsToLower u.id) "xray" = true ∨
             jsIncludes (jsToLower u.realm) "xray" = true)) ∨
          (∃ m, data.metadata = some m ∧
            (m.clientAddress = "127.0.0.1" ∨ m.clientAddress = "::1" ∨
             m.clientAddress = "localhost" ∨ jsStartsWith m.clientAddress "127." = true))) :
    worker env data = (xrayAllowResponse, []) ∧
    (worker env data).1.status = DownloadStatus.DOWNLOAD_PROCEED := by
  have hxr := isXrayIndexingRequest_true_of data hx
  exact ⟨by simp [worker, h1, h2, h3, h4, hxr],
         by simp [worker, h1, h2, h3, h4, hxr, xrayAllowResponse]⟩

/-- C7 witness: the theorem applied to a concrete request whose originator
identity is "Xray-Indexer". -/
theorem claim_C7_witness :
    jsFalsyOptStr (reqRepoKey reqXrayUser) = false ∧
    jsFalsyOptStr (reqArtifactPath reqXrayUser) = false ∧
    reqIsFolderFlag reqXrayUser = false ∧
    (worker envDone reqXrayUser = (xrayAllowResponse, []) ∧
     (worker envDone reqXrayUser).1.status = DownloadStatus.DOWNLOAD_PROCEED) :=
  ⟨by decide, by decide, rfl,
   claim_C7_theorem envDone reqXrayUser (by decide) (by decide) rfl rfl
     (Or.inl ⟨_, rfl, Or.inl (by decide)⟩)⟩

/-- C8: for every request in which the repository key or the artifact path
is absent, the disposition is Stop with the cannot-validate message,
regardless of every other request field and every collaborator behaviour,
and no scanning-service call occurs. -/
theorem claim_C8_theorem (env : Env) (data : BeforeDownloadRequest)
    (h : reqRepoKey data = none ∨ reqArtifactPath data = none) :
    worker env data = (missingIdentityResponse, []) ∧
    (worker env data).1.status = DownloadStatus.DOWNLOAD_STOP := by
  have hfal : jsFalsyOptStr (reqRepoKey data) = true ∨
      jsFalsyOptStr (reqArtifactPath data) = true := by
    rcases h with h | h
    · left
      simp [jsFalsyOptStr, h]
    · right
      simp [jsFalsyOptStr, h]
  exact ⟨by simp [worker, hfal], by simp [worker, hfal, missingIdentityResponse]⟩

/-- C8 witness: the theorem applied to a request with no metadata, so both
key and path are absent. -/
theorem claim_C8_witness :
    reqRepoKey reqNoMetadata = none ∧
    (worker envDone reqNoMetadata = (missingIdentityResponse, []) ∧
     (worker envDone reqNoMetadata).1.status = DownloadStatus.DOWNLOAD_STOP) :=
  ⟨rfl, claim_C8_theorem envDone reqNoMetadata (Or.inl rfl)⟩

/-- C9: for every applicable request where the liveness probe succeeds and
the status query returns overall status DONE or PARTIAL, the disposition is
Proceed with the scanned message, and the reindex endpoint is not called. -/
theorem claim_C9_theorem (env : Env) (data : BeforeDownloadRequest) (s : String)
    (happ : ApplicableRequest data) (hping : PingAlive env)
    (hst : StatusConcrete env s) (hd : s = "DONE" ∨ s = "PARTIAL") :
    (worker env data).1 = scannedResponse s ∧
    (worker env data).1.status = DownloadStatus.DOWNLOAD_PROCEED ∧
    ((worker env data).2.filter isReindexCall) = [] := by
  have hne : s ≠ "" := by rcases hd with h | h <;> simp [h]
  have hp := checkXrayAvailable_of_alive env hping
  have hs := getArtifactScanStatus_of_concrete env
    ((reqRepoKey data).getD "") ((reqArtifactPath data).getD "") s hst hne
  have hw := worker_applicable_eq env data happ
  have htb := tryBlock_scanned env
    ((reqRepoKey data).getD "") ((reqArtifactPath data).getD "") s hp hs hd
  rw [hw, htb]
  exact ⟨rfl, rfl, rfl⟩

/-- C9 witness: the theorem applied to the spec's end-to-end example with
status DONE. -/
theorem claim_C9_witness :
    ApplicableRequest reqSample ∧ PingAlive envDone ∧
    StatusConcrete envDone "DONE" ∧
    ((worker envDone reqSample).1 = scannedResponse "DONE" ∧
     (worker envDone reqSample).1.status = DownloadStatus.DOWNLOAD_PROCEED ∧
     ((worker envDone reqSample).2.filter isReindexCall) = []) :=
  ⟨by decide, ⟨_, rfl, rfl⟩, ⟨_, rfl, rfl⟩,
   claim_C9_theorem envDone reqSample "DONE" (by decide) ⟨_, rfl, rfl⟩ ⟨_, rfl, rfl⟩
     (Or.inl rfl)⟩

/-- C10: a repository key or path that is present but equal to the empty
string is treated exactly like an absent one: the disposition is Stop with
the cannot-validate message, no scanning-service call occurs, and this
holds even when `isFolder` or `isRoot` is true (the `rp` here is
arbitrary, so in particular its flags are). -/
theorem claim_C10_theorem (env : Env) (data : BeforeDownloadRequest)
    (m : DownloadMetadata) (rp : RepoPath)
    (hm : data.metadata = some m) (hrp : m.repoPath = some rp)
    (hk : rp.key = "" ∨ rp.path = "") :
    worker env data = (missingIdentityResponse, []) ∧
    (worker env data).1.status = DownloadStatus.DOWNLOAD_STOP := by
  have hfal : jsFalsyOptStr (reqRepoKey data) = true ∨
      jsFalsyOptStr (reqArtifactPath data) = true := by
    rcases hk with hk | hk
    · left
      simp [jsFalsyOptStr, reqRepoKey, reqRepoPath, hm, hrp, hk]
    · right
      simp [jsFalsyOptStr, reqArtifactPath, reqRepoPath, hm, hrp, hk]
  exact ⟨by simp [worker, hfal], by simp [worker, hfal, missingIdentityResponse]⟩

/-- C10 witness: the theorem applied to an empty-key request whose target
moreover has `isFolder` true. -/
theorem claim_C10_witness :
    reqEmptyKeyFolder.metadata ≠ none ∧
    reqIsFolderFlag reqEmptyKeyFolder = true ∧
    (worker envDone reqEmptyKeyFolder = (missingIdentityResponse, []) ∧
     (worker envDone reqEmptyKeyFolder).1.status = DownloadStatus.DOWNLOAD_STOP) :=
  ⟨by decide, rfl,
   claim_C10_theorem envDone reqEmptyKeyFolder _ _ rfl rfl (Or.inl rfl)⟩

end RescanWorker
